import Mathlib

/-!
Shallow embedding of the Tor10 tensor-bookkeeping core
(src/Tor10/UniTensor.py) in Lean 4, together with theorems settling the
frozen claims about it.

Conventions of the embedding:
* numeric buffer contents are modelled with `Int` (the bookkeeping layer is
  element-type agnostic; torch's float payload plays no structural role);
* a torch dense tensor is modelled by its row-major flat data plus a shape
  (`reshape` on a contiguous tensor keeps the flat data and changes the
  shape, `permute` moves data);
* fallible Python code (`raise`) is modelled with `Except String`;
* in-place mutation (`PutBlock`) is modelled by returning the post-call
  state of the tensor next to the `Except` result;
* `Bond.py` is not part of the source snapshot (only `UniTensor.py`,
  `linalg.py`, `nn.py` are); the bond-level helpers it provides
  (`Bond`, `combine`, `GetUniqueQnums`, `_fx_GetCommRows`, `Bond.__eq__`)
  are modelled from the spec, and are marked as such in their doc comments.
-/

/-- Modelled from the spec: the `Bond` class lives in `Bond.py`, which is
missing from the source snapshot.  A bond is one axis: a positive dimension
and, for a symmetric axis, one quantum-number vector (a fixed-length list of
integers, one entry per symmetry channel) per basis state.  `qnums = none`
is a non-symmetric axis. -/
structure Bond where
  dim : Nat
  qnums : Option (List (List Int))
deriving DecidableEq, Repr

instance : Inhabited Bond := ⟨⟨0, none⟩⟩

/-- Number of symmetry channels of a bond (`bd.nsym` in the source): the
common length of its quantum-number vectors. -/
def Bond.nsym (b : Bond) : Nat :=
  match b.qnums with
  | none => 0
  | some q => (q.headD []).length

/-- Channel-wise sum of two quantum-number vectors. -/
def zipAdd (x y : List Int) : List Int :=
  (x.zip y).map (fun p => p.1 + p.2)

/-- Modelled from the spec: `Bond.combine` with a single argument bond
(from the missing `Bond.py`).  Kronecker-style composition: dimension is the
product, and the quantum-number vector at combined index `(i, j)` (row-major,
`i` of the earlier bond varying slower) is the channel-wise sum of
`A.qnums[i]` and `B.qnums[j]`.  Non-symmetric bonds combine by plain
dimension product. -/
def Bond.combinePair (A B : Bond) : Bond :=
  { dim := A.dim * B.dim,
    qnums :=
      match A.qnums, B.qnums with
      | some qa, some qb => some (qa.flatMap (fun ra => qb.map (fun rb => zipAdd ra rb)))
      | _, _ => none }

/-- Modelled from the spec: `Bond.combine` applied to a list of bonds
(left-associative repeated pairwise composition; combining with the empty
list leaves the bond unchanged). -/
def Bond.combineList (A : Bond) (bs : List Bond) : Bond :=
  bs.foldl Bond.combinePair A

/-- Modelled from the spec: `Bond.GetUniqueQnums` (from the missing
`Bond.py`) returns the distinct quantum-number vectors appearing in a bond's
`qnums`, multiplicity discarded. -/
def Bond.GetUniqueQnums (b : Bond) : List (List Int) :=
  (b.qnums.getD []).dedup

/-- Modelled from the spec: `_fx_GetCommRows` (from the missing `Bond.py`)
returns the intersection of two duplicate-free lists of quantum-number
vectors. -/
def GetCommRows (S T : List (List Int)) : List (List Int) :=
  S.filter (fun r => decide (r ∈ T))

/-- Ascending strict lexicographic comparison of quantum-number vectors
(rows of equal length in practice). -/
def lexLTrows : List Int → List Int → Bool
  | _, [] => false
  | [], _ :: _ => true
  | x :: xs, y :: ys => if x < y then true else if y < x then false else lexLTrows xs ys

/-- Insertion step of the descending lexicographic sort of qnum rows. -/
def insertDesc (r : List Int) : List (List Int) → List (List Int)
  | [] => [r]
  | s :: ss => if lexLTrows r s then s :: insertDesc r ss else r :: s :: ss

/-- `np.lexsort(qnums.T[::-1])[::-1]` applied to the rows of `qnums`
(UniTensor.py line 176): sort the quantum-number vectors descending
lexicographically, channel 0 most significant.  Equal rows are identical
lists, so the row content is independent of how ties are broken. -/
def sortQnumsDesc (q : List (List Int)) : List (List Int) :=
  q.foldr insertDesc []

/-- Normalize one bond for block-form construction: sort its qnum rows
descending lexicographically (UniTensor.py lines 174-177). -/
def sortBondQ (b : Bond) : Bond :=
  { b with qnums := b.qnums.map sortQnumsDesc }

/-- Storage variant of a UniTensor: a dense rectangular buffer (row-major
flat data plus shape), the diagonal of a square matrix, or a list of
rank-2 blocks `(rows, cols, row-major data)`. -/
inductive UTStorage where
  | dense (shape : List Nat) (data : List Int)
  | diag (data : List Int)
  | blocks (bs : List (Nat × Nat × List Int))
deriving DecidableEq, Repr

/-- The UniTensor record (UniTensor.py).  The three block-metadata fields
are the empty list on non-block-form tensors (the source stores `None`). -/
structure UniTensor where
  bonds : List Bond
  labels : List Int
  N_inbond : Nat
  is_diag : Bool
  is_blockform : Bool
  BlockMapperIn : List (List Nat)
  BlockMapperOut : List (List Nat)
  BlockQnums : List (List Int)
  Storage : UTStorage
deriving DecidableEq, Repr

instance : Inhabited UniTensor :=
  ⟨⟨[], [], 0, false, false, [], [], [], UTStorage.dense [] []⟩⟩

/-- The combined virtual in-bond and out-bond of a bond list partitioned at
`nin` (UniTensor.GetTotalQnums lines 1466-1475: `bonds[0]` combined with
`bonds[1:nin]`, and `bonds[nin]` combined with `bonds[nin+1:]`). -/
def totalQnumsOf (bonds : List Bond) (nin : Nat) : Bond × Bond :=
  (Bond.combineList (bonds.headD default) ((bonds.drop 1).take (nin - 1)),
   Bond.combineList ((bonds.drop nin).headD default) (bonds.drop (nin + 1)))

/-- The sector list of a bond partition: `_fx_GetCommRows` of the unique
qnums of the combined in-bond and the combined out-bond (UniTensor.py
lines 180-183). -/
def sectorList (bonds : List Bond) (nin : Nat) : List (List Int) :=
  GetCommRows (totalQnumsOf bonds nin).1.GetUniqueQnums
    (totalQnumsOf bonds nin).2.GetUniqueQnums

/-- `np.where((rows == q).all(axis=1))[0]`: the ascending list of row
indices of `rows` equal to `q` (UniTensor.py lines 195-196). -/
def findIdxs (rows : List (List Int)) (q : List Int) : List Nat :=
  (List.range rows.length).filter (fun r => decide (rows.getD r [] = q))

/-- Default labels are `np.arange(len(bonds))` (UniTensor.py line 117). -/
def labelsOf (bonds : List Bond) (labels : Option (List Int)) : List Int :=
  labels.getD ((List.range bonds.length).map Int.ofNat)

/-- The tensor built by the block-form branch of `UniTensor.__init__`
(UniTensor.py lines 172-201): bonds with qnums sorted descending, one
zero block per common sector, and the three parallel metadata arrays. -/
def mkBlockTensor (bonds : List Bond) (nin : Nat) (lbls : List Int) : UniTensor :=
  let sb := bonds.map sortBondQ
  let qin := (totalQnumsOf sb nin).1.qnums.getD []
  let qout := (totalQnumsOf sb nin).2.qnums.getD []
  let C := sectorList sb nin
  { bonds := sb, labels := lbls, N_inbond := nin,
    is_diag := false, is_blockform := true,
    BlockMapperIn := C.map (findIdxs qin),
    BlockMapperOut := C.map (findIdxs qout),
    BlockQnums := C,
    Storage := UTStorage.blocks (C.map (fun q =>
      ((findIdxs qin q).length, (findIdxs qout q).length,
       List.replicate ((findIdxs qin q).length * (findIdxs qout q).length) 0))) }

/-- The validation chain of `UniTensor.__init__` with `check=True`
(UniTensor.py lines 122-165): the first failing check's message, or `none`
when all checks pass. -/
def initCheckError (bonds : List Bond) (N_inbond : Nat) (lbls : List Int)
    (is_diag : Bool) (is_blockform : Bool) : Option String :=
  if is_blockform ∧ is_diag then
    some "UniTensor.__init__ the sparse Tensor can be either is_blockform=True or is_diag=True. not both."
  else if 0 < bonds.length ∧ bonds.length < N_inbond then
    some "UniTensor.__init__ the N_inbond should be >=0 and < # of bonds"
  else if ¬ lbls.length = bonds.length then
    some "UniTensor.__init__ labels size is not consistence with the rank"
  else if ¬ lbls.dedup.length = lbls.length then
    some "UniTensor.__init__ labels contain duplicate element."
  else if is_diag ∧ ¬ lbls.length = 2 then
    some "UniTensor.__init__ is_diag=True require Tensor rank==2"
  else if is_diag ∧ ¬ N_inbond = 1 then
    some "UniTensor.__init__ is_diag=True require 1 inbond and 1 outbond"
  else if is_diag ∧ ¬ (bonds.headD default).dim = (bonds.getD 1 default).dim then
    some "UniTensor.__init__ is_diag=True require Tensor to be square rank-2"
  else if is_blockform ∧ (N_inbond < 1 ∨ bonds.length - N_inbond < 1) then
    some "UniTensor.__init__ is_blockform=True must have at least one in-bond and one out-bond"
  else if is_blockform ∧ (bonds.headD default).qnums = none then
    some "UniTensor.__init__ is_blockform=True must be symmetric Tensor with qnums."
  else if ¬ (bonds.map (fun bd => decide (bd.qnums = none))).dedup.length = 1 then
    some "UniTensor.__init__ the bonds are not consistent. Cannot have mixing bonds of with and without symmetry (qnums)."
  else if ¬ (bonds.headD default).qnums = none ∧
      ¬ (bonds.map Bond.nsym).dedup.length = 1 then
    some "UniTensor.__init__ the number of symmetry type for symmetry bonds doesn't match."
  else
    none

/-- The tensor built by the diagonal branch of `UniTensor.__init__`
(UniTensor.py lines 169-170). -/
def mkDiagTensor (bonds : List Bond) (nin : Nat) (lbls : List Int) : UniTensor :=
  { bonds := bonds, labels := lbls, N_inbond := nin,
    is_diag := true, is_blockform := false,
    BlockMapperIn := [], BlockMapperOut := [], BlockQnums := [],
    Storage := UTStorage.diag (List.replicate (bonds.headD default).dim 0) }

/-- The tensor built by the dense branch of `UniTensor.__init__`
(UniTensor.py lines 203-206). -/
def mkDenseTensor (bonds : List Bond) (nin : Nat) (lbls : List Int) : UniTensor :=
  { bonds := bonds, labels := lbls, N_inbond := nin,
    is_diag := false, is_blockform := false,
    BlockMapperIn := [], BlockMapperOut := [], BlockQnums := [],
    Storage := UTStorage.dense (bonds.map Bond.dim)
      (List.replicate ((bonds.map Bond.dim).prod) 0) }

/-- `UniTensor.__init__` with `torch_tensor=None`, `check=True`
(UniTensor.py lines 100-206), modulo device/dtype/grad.  The checks and
their order follow lines 123-166; the storage construction follows lines
168-206. -/
def mkUniTensor (bonds : List Bond) (N_inbond : Nat) (labels : Option (List Int))
    (is_diag : Bool) (is_blockform : Bool) : Except String UniTensor :=
  match initCheckError bonds N_inbond (labelsOf bonds labels) is_diag is_blockform with
  | some e => .error e
  | none =>
    if is_diag then
      .ok (mkDiagTensor bonds N_inbond (labelsOf bonds labels))
    else if is_blockform then
      if sectorList (bonds.map sortBondQ) N_inbond = [] then
        .error "UniTensor.__init__ [ERROR] no valid block in current Tensor. please check in-qnums and out-qnums have at least one same set of qnums."
      else
        .ok (mkBlockTensor bonds N_inbond (labelsOf bonds labels))
    else
      .ok (mkDenseTensor bonds N_inbond (labelsOf bonds labels))

/-! ## Basic lemmas about the sector machinery -/

theorem mem_GetCommRows {S T : List (List Int)} {q : List Int} :
    q ∈ GetCommRows S T ↔ q ∈ S ∧ q ∈ T := by
  simp [GetCommRows]

theorem nodup_GetCommRows {S T : List (List Int)} (h : S.Nodup) :
    (GetCommRows S T).Nodup :=
  h.filter _

theorem mem_findIdxs {rows : List (List Int)} {q : List Int} {r : Nat} :
    r ∈ findIdxs rows q ↔ r < rows.length ∧ rows.getD r [] = q := by
  simp [findIdxs]

theorem getD_map_lt {α β : Type} (f : α → β) (l : List α) (i : Nat) (d : β) (d₀ : α)
    (h : i < l.length) : (l.map f).getD i d = f (l.getD i d₀) := by
  rw [List.getD_eq_getElem (l.map f) d (by simpa using h), List.getElem_map,
    List.getD_eq_getElem l d₀ h]

theorem mem_GetUniqueQnums {b : Bond} {q : List Int} :
    q ∈ b.GetUniqueQnums ↔ q ∈ b.qnums.getD [] := by
  simp [Bond.GetUniqueQnums]

theorem sectorList_nodup (bonds : List Bond) (nin : Nat) :
    (sectorList bonds nin).Nodup :=
  nodup_GetCommRows (List.nodup_dedup _)

theorem mem_sectorList {bonds : List Bond} {nin : Nat} {q : List Int} :
    q ∈ sectorList bonds nin ↔
      q ∈ (totalQnumsOf bonds nin).1.GetUniqueQnums ∧
      q ∈ (totalQnumsOf bonds nin).2.GetUniqueQnums := by
  simp [sectorList, mem_GetCommRows]

/-- Inversion of the constructor in the block-form case: success returns
exactly the tensor of `mkBlockTensor`, and only when the sector list is
non-empty. -/
theorem mk_blockform_ok {bonds : List Bond} {nin : Nat} {lbls : Option (List Int)}
    {t : UniTensor} (h : mkUniTensor bonds nin lbls false true = Except.ok t) :
    t = mkBlockTensor bonds nin (labelsOf bonds lbls) ∧
    sectorList (bonds.map sortBondQ) nin ≠ [] := by
  unfold mkUniTensor at h
  cases hE : initCheckError bonds nin (labelsOf bonds lbls) false true with
  | some e => rw [hE] at h; exact Except.noConfusion h
  | none =>
    rw [hE] at h
    simp only [Bool.false_eq_true, if_false, if_true] at h
    by_cases hC : sectorList (bonds.map sortBondQ) nin = []
    · rw [if_pos hC] at h; exact Except.noConfusion h
    · rw [if_neg hC] at h
      exact ⟨(Except.ok.inj h).symm, hC⟩

/-! ## C1: block-form construction metadata -/

/-- The property asserted by claim C1, for a tensor `t` constructed
block-form from `bonds` with `nin` in-bonds: writing `cb_in`/`cb_out` for
the combined virtual in-bond and out-bond of the descending-sorted bonds,
* `BlockQnums` is exactly `CommonRows(unique(cb_in.qnums), unique(cb_out.qnums))`,
  duplicate-free, and a qnum vector is a block qnum iff it appears in both
  unique lists;
* `BlockMapperIn[i]` / `BlockMapperOut[i]` hold exactly the row/column
  indices whose combined qnum equals `BlockQnums[i]`;
* the storage is a list of blocks, one per sector, block `i` being a
  zero-filled buffer of shape `(|BlockMapperIn[i]|, |BlockMapperOut[i]|)`. -/
def C1Prop (bonds : List Bond) (nin : Nat) (t : UniTensor) : Prop :=
  t.BlockQnums = sectorList (bonds.map sortBondQ) nin ∧
  t.BlockQnums.Nodup ∧
  (∀ q : List Int, q ∈ t.BlockQnums ↔
    q ∈ (totalQnumsOf (bonds.map sortBondQ) nin).1.GetUniqueQnums ∧
    q ∈ (totalQnumsOf (bonds.map sortBondQ) nin).2.GetUniqueQnums) ∧
  (∀ i, i < t.BlockQnums.length →
    (∀ r : Nat, r ∈ t.BlockMapperIn.getD i [] ↔
      r < ((totalQnumsOf (bonds.map sortBondQ) nin).1.qnums.getD []).length ∧
      ((totalQnumsOf (bonds.map sortBondQ) nin).1.qnums.getD []).getD r [] =
        t.BlockQnums.getD i []) ∧
    (∀ c : Nat, c ∈ t.BlockMapperOut.getD i [] ↔
      c < ((totalQnumsOf (bonds.map sortBondQ) nin).2.qnums.getD []).length ∧
      ((totalQnumsOf (bonds.map sortBondQ) nin).2.qnums.getD []).getD c [] =
        t.BlockQnums.getD i [])) ∧
  (∃ bs, t.Storage = UTStorage.blocks bs ∧ bs.length = t.BlockQnums.length ∧
    ∀ i, i < bs.length →
      bs.getD i (0, 0, []) =
        ((t.BlockMapperIn.getD i []).length, (t.BlockMapperOut.getD i []).length,
         List.replicate
           ((t.BlockMapperIn.getD i []).length * (t.BlockMapperOut.getD i []).length) 0))

/-- C1: every successfully constructed block-form UniTensor satisfies the
sector-coverage and conservation-law block metadata properties. -/
theorem C1_blockform_metadata (bonds : List Bond) (nin : Nat)
    (lbls : Option (List Int)) (t : UniTensor)
    (h : mkUniTensor bonds nin lbls false true = Except.ok t) :
    C1Prop bonds nin t := by
  obtain ⟨rfl, -⟩ := mk_blockform_ok h
  unfold C1Prop mkBlockTensor
  refine ⟨rfl, sectorList_nodup _ _, fun q => mem_sectorList, ?_, ?_⟩
  · intro i hi
    simp only [List.length_map] at hi ⊢
    constructor
    · intro r
      rw [getD_map_lt (findIdxs _) _ i [] [] hi, mem_findIdxs]
    · intro c
      rw [getD_map_lt (findIdxs _) _ i [] [] hi, mem_findIdxs]
  · refine ⟨_, rfl, by simp, ?_⟩
    intro i hi
    simp only [List.length_map] at hi
    rw [getD_map_lt _ _ i (0, 0, []) [] hi,
      getD_map_lt (findIdxs _) _ i [] [] hi,
      getD_map_lt (findIdxs _) _ i [] [] hi]

/-- Concrete block-form scenario from the spec (§8): bonds with single-channel
qnums `[0,1,2]`, `[-1,2,0,2]`, `[4,2,-1,5,1]`, two in-bonds. -/
def c1bonds : List Bond :=
  [⟨3, some [[0], [1], [2]]⟩, ⟨4, some [[-1], [2], [0], [2]]⟩,
   ⟨5, some [[4], [2], [-1], [5], [1]]⟩]

/-- The tensor the constructor builds in the C1 witness scenario. -/
def c1Tensor : UniTensor :=
  match mkUniTensor c1bonds 2 none false true with
  | Except.ok t => t
  | Except.error _ => default

theorem C1_blockform_metadata_witness : C1Prop c1bonds 2 c1Tensor :=
  C1_blockform_metadata c1bonds 2 none c1Tensor rfl

/-! ## C8: empty sector intersection rejects construction -/

/-- C8: requesting a block-form tensor whose combined in-bond and out-bond
share no common unique quantum-number vector is a construction error. -/
theorem C8_empty_sector_error (bonds : List Bond) (nin : Nat)
    (lbls : Option (List Int))
    (hC : sectorList (bonds.map sortBondQ) nin = []) :
    ∃ e, mkUniTensor bonds nin lbls false true = Except.error e := by
  unfold mkUniTensor
  cases hE : initCheckError bonds nin (labelsOf bonds lbls) false true with
  | some e => exact ⟨e, rfl⟩
  | none =>
    simp only [Bool.false_eq_true, if_false, if_true]
    rw [if_pos hC]
    exact ⟨_, rfl⟩

theorem C8_empty_sector_error_witness :
    sectorList ([⟨1, some [[0]]⟩, ⟨1, some [[1]]⟩].map sortBondQ) 1 = [] ∧
    ∃ e, mkUniTensor [⟨1, some [[0]]⟩, ⟨1, some [[1]]⟩] 1 none false true =
      Except.error e :=
  ⟨by decide, C8_empty_sector_error _ 1 none (by decide)⟩

/-! ## GetBlock / PutBlock -/

/-- Truthiness of a numpy boolean array, as used by
`if np.array(qnum) == self._BlockQnums[s]:` (UniTensor.py lines 1497, 1701):
a one-element array yields its element; any other size raises. -/
def npBoolTruth (l : List Bool) : Except String Bool :=
  match l with
  | [b] => Except.ok b
  | _ => Except.error "ValueError: The truth value of an array with more than one element is ambiguous."

/-- Elementwise `==` of two equal-length numpy integer vectors; unequal
lengths (which well-formed metadata never produces) model numpy's broadcast
failure. -/
def npEqArr (x y : List Int) : Except String (List Bool) :=
  if x.length = y.length then
    Except.ok ((x.zip y).map (fun p => decide (p.1 = p.2)))
  else
    Except.error "ValueError: operands could not be broadcast together"

/-- `np.argwhere(rows[:,n] == v).flatten()`: ascending indices of the rows
whose channel `n` equals `v` (UniTensor.py lines 1544, 1731). -/
def chanIdx (rows : List (List Int)) (n : Nat) (v : Int) : List Nat :=
  (List.range rows.length).filter (fun r => decide ((rows.getD r []).getD n 0 = v))

/-- `np.intersect1d` on ascending duplicate-free index lists: keep the
entries of `x` also present in `y` (order preserved, hence still
ascending). -/
def natIntersect (x y : List Nat) : List Nat :=
  x.filter (fun i => decide (i ∈ y))

/-- The per-channel filter-and-intersect loop of the symmetric dense
`GetBlock`/`PutBlock` path (UniTensor.py lines 1544-1546, 1731-1733):
indices of channel-0 matches, intersected with the matches of every further
channel. -/
def rowSelect (rows : List (List Int)) (q : List Int) (nsym : Nat) : List Nat :=
  (List.range' 1 (nsym - 1)).foldl
    (fun acc n => natIntersect acc (chanIdx rows n (q.getD n 0)))
    (chanIdx rows 0 (q.getD 0 0))

/-- The rank-2 `UniTensor` that `GetBlock` wraps a found block into
(UniTensor.py lines 1702-1706, constructed with `check=False`). -/
def blockTensorOf (blk : Nat × Nat × List Int) : UniTensor :=
  { bonds := [⟨blk.1, none⟩, ⟨blk.2.1, none⟩], labels := [1, 2], N_inbond := 1,
    is_diag := false, is_blockform := false,
    BlockMapperIn := [], BlockMapperOut := [], BlockQnums := [],
    Storage := UTStorage.dense [blk.1, blk.2.1] blk.2.2 }

/-- The linear search of the block-form `GetBlock`
(UniTensor.py lines 1700-1709), including the numpy truthiness of the
array comparison. -/
def blockSearchGet : List ((Nat × Nat × List Int) × List Int) → List Int →
    Except String UniTensor
  | [], _ => .error "UniTensor.PutBlock [ERROR] No block has qnums"
  | (blk, bq) :: rest, q =>
    match npEqArr q bq with
    | .error e => .error e
    | .ok cmp =>
      match npBoolTruth cmp with
      | .error e => .error e
      | .ok true => .ok (blockTensorOf blk)
      | .ok false => blockSearchGet rest q

/-- The rank-2 `UniTensor` the symmetric dense `GetBlock` path returns
(UniTensor.py lines 1754-1764): the sub-matrix of the `(rows, cols)` matrix
view of the flat buffer `d` at the index grid `iin x iout`, wrapped with
`check=False`. -/
def denseSubBlock (iin iout : List Nat) (cols : Nat) (d : List Int) : UniTensor :=
  { bonds := [⟨iin.length, none⟩, ⟨iout.length, none⟩],
    labels := [1, 2], N_inbond := 1,
    is_diag := false, is_blockform := false,
    BlockMapperIn := [], BlockMapperOut := [], BlockQnums := [],
    Storage := UTStorage.dense [iin.length, iout.length]
      (iin.flatMap (fun r => iout.map (fun c => d.getD (r * cols + c) 0))) }

/-- `UniTensor.GetBlock` (UniTensor.py lines 1583-1764). -/
def GetBlock (t : UniTensor) (qnum : List Int) : Except String UniTensor :=
  if t.is_diag then
    .error "UniTensor.GetBlock [ERROR] Cannot get block on a diagonal tensor (is_diag=True)"
  else if t.bonds = [] then
    -- `self.bonds[0]` on an empty bond array is a Python IndexError
    .error "IndexError: tensor has no bonds"
  else if (t.bonds.headD default).qnums = none then
    -- line 1690-1691: a warning is printed and `self` is returned.
    .ok t
  else if ¬ qnum.length = (t.bonds.headD default).nsym then
    .error "UniTensor.GetBlock [ERROR] The qnumtum numbers not match the number of type."
  else if t.is_blockform then
    match t.Storage with
    | UTStorage.blocks bs => blockSearchGet (bs.zip t.BlockQnums) qnum
    | _ => .error "TypeError: block-form tensor without block-list storage"
  else if t.N_inbond = 0 ∨ t.N_inbond = t.bonds.length then
    .error "UniTensor.GetBlock [ERROR] Trying to get a block on a TN without either any in-bond or any out-bond"
  else if rowSelect ((totalQnumsOf t.bonds t.N_inbond).1.qnums.getD [])
      qnum (t.bonds.headD default).nsym = [] then
    .error "UniTensor.GetBlock [ERROR] Trying to get a qnum block that is not exists in the total Qnum of in-bonds in current TN."
  else if rowSelect ((totalQnumsOf t.bonds t.N_inbond).2.qnums.getD [])
      qnum (t.bonds.headD default).nsym = [] then
    .error "UniTensor.GetBlock [ERROR] Trying to get a qnum block that is not exists in the totoal Qnum out-bonds in current TN."
  else
    match t.Storage with
    | UTStorage.dense sh d =>
      -- lines 1751-1754: reshape to (prod(in-dims), -1) and select the
      -- sub-matrix at i_in x i_out; on a contiguous row-major buffer entry
      -- (r, c) of the matrix view is flat entry r*cols + c with
      -- cols = prod(out-dims).
      .ok (denseSubBlock
        (rowSelect ((totalQnumsOf t.bonds t.N_inbond).1.qnums.getD []) qnum
          (t.bonds.headD default).nsym)
        (rowSelect ((totalQnumsOf t.bonds t.N_inbond).2.qnums.getD []) qnum
          (t.bonds.headD default).nsym)
        ((sh.drop t.N_inbond).prod) d)
    | _ => .error "model: dense symmetric tensor without dense storage"

/-- The possible Python values passed as the `block` argument of `PutBlock`:
a numpy array, a torch tensor (both modelled by rank-2 shape plus row-major
data), a UniTensor, or a value of any other type. -/
inductive PyBlockArg where
  | npArr (r c : Nat) (data : List Int)
  | torchT (r c : Nat) (data : List Int)
  | uni (t : UniTensor)
  | other
deriving DecidableEq, Repr

/-- `self.Storage.shape`: an `AttributeError` when the storage is a Python
list of blocks. -/
def storageShapeE (t : UniTensor) : Except String (List Nat) :=
  match t.Storage with
  | UTStorage.dense sh _ => .ok sh
  | UTStorage.diag d => .ok [d.length]
  | UTStorage.blocks _ => .error "AttributeError: list object has no attribute shape"

/-- The block-argument dispatch of the block-form `PutBlock`
(UniTensor.py lines 1498-1518): shape-check then replace block `s`. -/
def checkPutArgBlock (arg : PyBlockArg) (blk : Nat × Nat × List Int) :
    Except String (Nat × Nat × List Int) :=
  match arg with
  | PyBlockArg.npArr r c d =>
    if r = blk.1 ∧ c = blk.2.1 then .ok (r, c, d)
    else .error "UniTensor.PutBlock [ERROR] block size does not match"
  | PyBlockArg.torchT r c d =>
    if r = blk.1 ∧ c = blk.2.1 then .ok (r, c, d)
    else .error "UniTensor.PutBlock [ERROR] block size does not match"
  | PyBlockArg.uni u =>
    if u.is_blockform then
      .error "UniTensor.PutBlock [ERROR] cannot put a sparse block-from tensor"
    else
      match u.Storage with
      | UTStorage.dense sh d =>
        if sh = [blk.1, blk.2.1] then .ok (blk.1, blk.2.1, d)
        else .error "UniTensor.PutBlock [ERROR] block size does not match"
      | UTStorage.diag d =>
        if ([d.length] : List Nat) = [blk.1, blk.2.1] then .ok (blk.1, blk.2.1, d)
        else .error "UniTensor.PutBlock [ERROR] block size does not match"
      | UTStorage.blocks _ => .error "AttributeError: list object has no attribute shape"
  | PyBlockArg.other =>
    .error "UniTensor.PutBlock [ERROR] the block can only be an np.array or a torch.Tensor"

/-- The linear search of the block-form `PutBlock`
(UniTensor.py lines 1495-1523): find the block whose qnums compare true,
replace it; numpy truthiness errors propagate. -/
def putSearch (arg : PyBlockArg) (q : List Int) :
    List ((Nat × Nat × List Int) × List Int) →
    Except String (List (Nat × Nat × List Int))
  | [] => .error "UniTensor.PutBlock [ERROR] No block has qnums"
  | (blk, bq) :: rest =>
    match npEqArr q bq with
    | .error e => .error e
    | .ok cmp =>
      match npBoolTruth cmp with
      | .error e => .error e
      | .ok true =>
        match checkPutArgBlock arg blk with
        | .error e => .error e
        | .ok newblk => .ok (newblk :: rest.map Prod.fst)
      | .ok false =>
        match putSearch arg q rest with
        | .error e => .error e
        | .ok tail => .ok (blk :: tail)

/-- Overwrite the entries of the matrix view `(rows, cols)` of flat buffer
`d` at the index grid `np.ix_(iin, iout)` with the row-major entries of
`blk` (UniTensor.py lines 1569-1576). -/
def writeIx (d : List Int) (cols : Nat) (iin iout : List Nat) (blk : List Int) :
    List Int :=
  (List.range d.length).map (fun p =>
    if decide (p / cols ∈ iin) && decide (p % cols ∈ iout) then
      blk.getD ((iin.indexOf (p / cols)) * iout.length + iout.indexOf (p % cols)) 0
    else d.getD p 0)

/-- `UniTensor.PutBlock` (UniTensor.py lines 1478-1580).  Mutation is
modelled by returning the post-call tensor state next to the result; note
that on the symmetric dense path the storage is reshaped to its rank-2
matrix view (line 1566) *before* the block-argument dispatch, so the error
paths of that dispatch leave the tensor reshaped (the reshape back on line
1580 only runs on success). -/
def PutBlock (t : UniTensor) (block : PyBlockArg) (qnum : List Int) :
    Except String Unit × UniTensor :=
  if t.bonds = [] then
    (.error "IndexError: tensor has no bonds", t)
  else
    if (t.bonds.headD default).qnums = none then
      (.error "[Warning] PutBlock cannot be use for non-symmetry TN. Use SetElem instead.", t)
    else if ¬ qnum.length = (t.bonds.headD default).nsym then
      (.error "UniTensor.PutBlock [ERROR] The qnumtum numbers not match the number of type.", t)
    else if t.is_diag then
      (.error "UniTensor.PutBlock [ERROR] Cannot put block on a diagonal tensor (is_diag=True)", t)
    else if t.is_blockform then
      match t.Storage with
      | UTStorage.blocks bs =>
        match putSearch block qnum (bs.zip t.BlockQnums) with
        | .error e => (.error e, t)
        | .ok newbs => (.ok (), { t with Storage := UTStorage.blocks newbs })
      | _ => (.error "TypeError: block-form tensor without block-list storage", t)
    else
      if t.N_inbond = 0 ∨ t.N_inbond = t.bonds.length then
        (.error "UniTensor.PutBlock [ERROR] Trying to put a block on a TN without either any in-bond or any out-bond", t)
      else
        let iin := rowSelect ((totalQnumsOf t.bonds t.N_inbond).1.qnums.getD [])
          qnum (t.bonds.headD default).nsym
        if iin = [] then
          (.error "UniTensor.PutBlock [ERROR] Trying to put a qnum block that is not exists in the total Qnum of in-bonds in current TN.", t)
        else
          let iout := rowSelect ((totalQnumsOf t.bonds t.N_inbond).2.qnums.getD [])
            qnum (t.bonds.headD default).nsym
          if iout = [] then
            (.error "UniTensor.PutBlock [ERROR] Trying to put a qnum block that is not exists in the totoal Qnum out-bonds in current TN.", t)
          else
            match t.Storage with
            | UTStorage.dense sh d =>
              let rows := (sh.take t.N_inbond).prod
              let cols := (sh.drop t.N_inbond).prod
              -- the state after `self.Storage = self.Storage.reshape(rows, -1)`
              let t2 : UniTensor := { t with Storage := UTStorage.dense [rows, cols] d }
              match block with
              | PyBlockArg.npArr r c bd =>
                if r = iin.length ∧ c = iout.length then
                  (.ok (), { t with Storage := UTStorage.dense sh (writeIx d cols iin iout bd) })
                else (.error "RuntimeError: shape mismatch in index-grid assignment", t2)
              | PyBlockArg.torchT r c bd =>
                if r = iin.length ∧ c = iout.length then
                  (.ok (), { t with Storage := UTStorage.dense sh (writeIx d cols iin iout bd) })
                else (.error "RuntimeError: shape mismatch in index-grid assignment", t2)
              | PyBlockArg.uni u =>
                if u.is_blockform then
                  (.error "UniTensor.PutBlock [ERRROR] cannot put a sparse block-form tensor.", t2)
                else
                  match u.Storage with
                  | UTStorage.dense sh2 d2 =>
                    if sh2 = [iin.length, iout.length] then
                      (.ok (), { t with Storage := UTStorage.dense sh (writeIx d cols iin iout d2) })
                    else (.error "RuntimeError: shape mismatch in index-grid assignment", t2)
                  | UTStorage.diag _ =>
                    (.error "RuntimeError: shape mismatch in index-grid assignment", t2)
                  | UTStorage.blocks _ =>
                    (.error "AttributeError: list object has no attribute clone", t2)
              | PyBlockArg.other =>
                (.error "UniTensor.PutBlock [ERROR] the block can only be an np.array or a torch.Tensor", t2)
            | _ => (.error "model: dense symmetric tensor without dense storage", t)

/-! ## Lemmas about the per-channel row selection -/

theorem mem_chanIdx {rows : List (List Int)} {n : Nat} {v : Int} {r : Nat} :
    r ∈ chanIdx rows n v ↔ r < rows.length ∧ (rows.getD r []).getD n 0 = v := by
  simp [chanIdx]

theorem mem_natIntersect {x y : List Nat} {r : Nat} :
    r ∈ natIntersect x y ↔ r ∈ x ∧ r ∈ y := by
  simp [natIntersect]

theorem mem_foldl_natIntersect (L : List Nat) (f : Nat → List Nat) (acc : List Nat)
    (r : Nat) :
    (r ∈ L.foldl (fun a n => natIntersect a (f n)) acc) ↔
      r ∈ acc ∧ ∀ n ∈ L, r ∈ f n := by
  induction L generalizing acc with
  | nil => simp
  | cons x xs ih =>
    rw [List.foldl_cons, ih, mem_natIntersect, List.forall_mem_cons]
    tauto

/-- A row index selected by the channel-filter loop points at a row equal to
the requested qnum vector (given uniform row length). -/
theorem rowSelect_mem {rows : List (List Int)} {q : List Int} {nsym : Nat} {r : Nat}
    (hr : r ∈ rowSelect rows q nsym)
    (hlen : ∀ row ∈ rows, row.length = nsym) (hq : q.length = nsym) :
    r < rows.length ∧ rows.getD r [] = q := by
  rw [rowSelect, mem_foldl_natIntersect] at hr
  obtain ⟨h0, hrest⟩ := hr
  rw [mem_chanIdx] at h0
  refine ⟨h0.1, ?_⟩
  have hmem : rows.getD r [] ∈ rows := by
    rw [List.getD_eq_getElem rows [] h0.1]
    exact List.getElem_mem _
  have hlr : (rows.getD r []).length = nsym := hlen _ hmem
  apply List.ext_getElem (by rw [hlr, hq])
  intro n h1 h2
  rw [hlr] at h1
  have hch : (rows.getD r []).getD n 0 = q.getD n 0 := by
    rcases Nat.eq_zero_or_pos n with hn | hn
    · subst hn; exact h0.2
    · have hmemn := hrest n (List.mem_range'_1.mpr ⟨hn, by omega⟩)
      rw [mem_chanIdx] at hmemn
      exact hmemn.2
  rwa [List.getD_eq_getElem _ 0 (by omega), List.getD_eq_getElem _ 0 h2] at hch

/-! ## Row lengths survive bond combination -/

theorem combinePair_row_length {nsym : Nat} {A B : Bond}
    (hA : ∀ row ∈ A.qnums.getD [], row.length = nsym)
    (hB : ∀ row ∈ B.qnums.getD [], row.length = nsym) :
    ∀ row ∈ (A.combinePair B).qnums.getD [], row.length = nsym := by
  intro row hrow
  unfold Bond.combinePair at hrow
  cases hqa : A.qnums with
  | none => rw [hqa] at hrow; simp at hrow
  | some qa =>
    cases hqb : B.qnums with
    | none => rw [hqa, hqb] at hrow; simp at hrow
    | some qb =>
      rw [hqa, hqb] at hrow
      simp only [Option.getD_some, List.mem_flatMap, List.mem_map] at hrow
      obtain ⟨ra, hra, rb, hrb, rfl⟩ := hrow
      have la := hA ra (by rw [hqa]; exact hra)
      have lb := hB rb (by rw [hqb]; exact hrb)
      simp [zipAdd, la, lb]

theorem combineList_row_length {nsym : Nat} (bs : List Bond) :
    ∀ (A : Bond),
      (∀ row ∈ A.qnums.getD [], row.length = nsym) →
      (∀ b ∈ bs, ∀ row ∈ b.qnums.getD [], row.length = nsym) →
      ∀ row ∈ (Bond.combineList A bs).qnums.getD [], row.length = nsym := by
  induction bs with
  | nil => intro A hA _; exact hA
  | cons b rest ih =>
    intro A hA hbs
    exact ih (A.combinePair b)
      (combinePair_row_length hA (hbs b (by simp)))
      (fun x hx => hbs x (by simp [hx]))

/-- Rows of the combined virtual in-bond of a tensor have the tensor's
channel count. -/
theorem totalQnums_in_row_length {t : UniTensor} {nsym : Nat}
    (hrow : ∀ b ∈ t.bonds, ∀ row ∈ b.qnums.getD [], row.length = nsym)
    (hne : t.bonds ≠ []) :
    ∀ row ∈ ((totalQnumsOf t.bonds t.N_inbond).1.qnums.getD []), row.length = nsym := by
  refine combineList_row_length _ _ ?_ ?_
  · refine hrow _ ?_
    cases hb : t.bonds with
    | nil => exact absurd hb hne
    | cons b0 rest => simp
  · intro b hb
    exact hrow b (List.drop_subset 1 t.bonds (List.take_subset _ _ hb))

/-- Rows of the combined virtual out-bond of a tensor have the tensor's
channel count (given at least one out-bond). -/
theorem totalQnums_out_row_length {t : UniTensor} {nsym : Nat}
    (hrow : ∀ b ∈ t.bonds, ∀ row ∈ b.qnums.getD [], row.length = nsym)
    (hlt : t.N_inbond < t.bonds.length) :
    ∀ row ∈ ((totalQnumsOf t.bonds t.N_inbond).2.qnums.getD []), row.length = nsym := by
  refine combineList_row_length _ _ ?_ ?_
  · refine hrow _ ?_
    have hd : t.bonds.drop t.N_inbond ≠ [] := by
      intro hcon
      have := List.length_drop t.N_inbond t.bonds
      rw [hcon] at this
      simp at this
      omega
    cases hdd : t.bonds.drop t.N_inbond with
    | nil => exact absurd hdd hd
    | cons b0 rest =>
      have : b0 ∈ t.bonds.drop t.N_inbond := by rw [hdd]; simp
      simpa using List.drop_subset _ _ this
  · intro b hb
    exact hrow b (List.drop_subset _ _ hb)

/-- The block-form linear search never succeeds when no stored block qnum
equals the request: with one symmetry channel the comparison is a genuine
miss, with zero or several channels numpy's array truthiness raises. -/
theorem blockSearchGet_error {q : List Int} {nsym : Nat} (hq : q.length = nsym)
    (l : List ((Nat × Nat × List Int) × List Int))
    (hall : ∀ p ∈ l, p.2.length = nsym ∧ p.2 ≠ q) :
    ∃ e, blockSearchGet l q = Except.error e := by
  induction l with
  | nil => exact ⟨_, rfl⟩
  | cons hd rest ih =>
    obtain ⟨blk, bq⟩ := hd
    obtain ⟨hlen, hne⟩ := hall (blk, bq) (by simp)
    rw [blockSearchGet, npEqArr, if_pos (by rw [hq, hlen])]
    rcases hnsym : nsym with _ | n
    · exfalso
      apply hne
      have h1 : bq = [] := List.length_eq_zero.mp (by simpa [hnsym] using hlen)
      have h2 : q = [] := List.length_eq_zero.mp (by rw [hq, hnsym])
      show bq = q
      rw [h1, h2]
    · rcases n with _ | m
      · obtain ⟨x, hx⟩ := List.length_eq_one.mp (by rw [hq, hnsym])
        obtain ⟨y, hy⟩ := List.length_eq_one.mp (by rw [hlen, hnsym])
        subst hx; subst hy
        have hxy : ¬ x = y := by
          intro hcon; exact hne (by rw [hcon])
        simp only [List.zip_cons_cons, List.zip_nil_right, List.map_cons,
          List.map_nil, npBoolTruth, decide_eq_true_eq]
        rw [decide_eq_false hxy]
        exact ih (fun p hp => hall p (by simp [hp]))
      · have hlz : ((q.zip bq).map (fun p => decide (p.1 = p.2))).length = m + 2 := by
          rw [List.length_map, List.length_zip, hq, hlen, hnsym]
          simp
        rcases hc : (q.zip bq).map (fun p => decide (p.1 = p.2)) with _ | ⟨c1, ctail⟩
        · rw [hc] at hlz; simp at hlz
        · rcases hct : ctail with _ | ⟨c2, cs⟩
          · rw [hc, hct] at hlz; simp at hlz
          · rw [hc, hct]
            exact ⟨_, rfl⟩

theorem foldl_natIntersect_empty (L : List Nat) (f : Nat → List Nat) :
    L.foldl (fun a n => natIntersect a (f n)) [] = [] := by
  induction L with
  | nil => rfl
  | cons x xs ih => simpa [natIntersect] using ih

theorem rowSelect_nil (q : List Int) (nsym : Nat) : rowSelect [] q nsym = [] := by
  rw [rowSelect]
  have h0 : chanIdx [] 0 (q.getD 0 0) = [] := rfl
  rw [h0]
  exact foldl_natIntersect_empty _ _

/-! ## C6: GetBlock outside the sector list always fails -/

/-- C6: on a symmetric UniTensor (all bonds carry qnums of the common
channel count; for a block-form tensor the stored `BlockQnums` come from its
sector list, as construction guarantees), `GetBlock q` for a `q` outside
`CommonRows(unique(cb_in.qnums), unique(cb_out.qnums))` returns an error —
never a tensor. -/
theorem C6_getblock_no_sector_error (t : UniTensor) (q : List Int)
    (hsym : ∀ b ∈ t.bonds, b.qnums ≠ none)
    (hrow : ∀ b ∈ t.bonds, ∀ row ∈ b.qnums.getD [],
      row.length = (t.bonds.headD default).nsym)
    (hbq : ∀ bq ∈ t.BlockQnums, bq ∈ sectorList t.bonds t.N_inbond)
    (hq : q ∉ sectorList t.bonds t.N_inbond) :
    ∃ e, GetBlock t q = Except.error e := by
  unfold GetBlock
  by_cases hd : t.is_diag = true
  · rw [if_pos hd]; exact ⟨_, rfl⟩
  rw [if_neg hd]
  by_cases hnil : t.bonds = []
  · rw [if_pos hnil]; exact ⟨_, rfl⟩
  rw [if_neg hnil]
  have hq0 : ¬ (t.bonds.headD default).qnums = none := by
    apply hsym
    cases hb : t.bonds with
    | nil => exact absurd hb hnil
    | cons a l => simp
  rw [if_neg hq0]
  by_cases hql : q.length = (t.bonds.headD default).nsym
  case neg => rw [if_pos hql]; exact ⟨_, rfl⟩
  rw [if_neg (by simpa using hql)]
  by_cases hbf : t.is_blockform = true
  · rw [if_pos hbf]
    cases hst : t.Storage with
    | dense sh d => exact ⟨_, rfl⟩
    | diag d => exact ⟨_, rfl⟩
    | blocks bs =>
      apply blockSearchGet_error hql
      intro p hp
      have hpbq : p.2 ∈ t.BlockQnums := (List.of_mem_zip hp).2
      have hsec := hbq p.2 hpbq
      constructor
      · have hin : p.2 ∈ (totalQnumsOf t.bonds t.N_inbond).1.qnums.getD [] :=
          mem_GetUniqueQnums.mp (mem_sectorList.mp hsec).1
        exact totalQnums_in_row_length hrow hnil p.2 hin
      · intro hcon
        rw [hcon] at hsec
        exact hq hsec
  · rw [if_neg hbf]
    by_cases hnin : t.N_inbond = 0 ∨ t.N_inbond = t.bonds.length
    · rw [if_pos hnin]; exact ⟨_, rfl⟩
    rw [if_neg hnin]
    by_cases hiin : rowSelect ((totalQnumsOf t.bonds t.N_inbond).1.qnums.getD [])
        q (t.bonds.headD default).nsym = []
    · rw [if_pos hiin]; exact ⟨_, rfl⟩
    rw [if_neg hiin]
    by_cases hiout : rowSelect ((totalQnumsOf t.bonds t.N_inbond).2.qnums.getD [])
        q (t.bonds.headD default).nsym = []
    · rw [if_pos hiout]; exact ⟨_, rfl⟩
    exfalso
    have hlt : t.N_inbond < t.bonds.length := by
      rcases Nat.lt_or_ge t.N_inbond t.bonds.length with h | h
      · exact h
      · exfalso
        apply hiout
        have hout0 : (totalQnumsOf t.bonds t.N_inbond).2.qnums.getD [] = [] := by
          unfold totalQnumsOf
          rw [List.drop_eq_nil_of_le h,
            List.drop_eq_nil_of_le (le_trans h (Nat.le_succ _))]
          rfl
        rw [hout0, rowSelect_nil]
    obtain ⟨r, hr⟩ := List.exists_mem_of_ne_nil _ hiin
    obtain ⟨c, hc⟩ := List.exists_mem_of_ne_nil _ hiout
    obtain ⟨hrlt, hreq⟩ := rowSelect_mem hr (totalQnums_in_row_length hrow hnil) hql
    obtain ⟨hclt, hceq⟩ := rowSelect_mem hc (totalQnums_out_row_length hrow hlt) hql
    apply hq
    rw [mem_sectorList]
    constructor
    · rw [mem_GetUniqueQnums, ← hreq, List.getD_eq_getElem _ [] hrlt]
      exact List.getElem_mem _
    · rw [mem_GetUniqueQnums, ← hceq, List.getD_eq_getElem _ [] hclt]
      exact List.getElem_mem _

theorem C6_getblock_no_sector_error_witness :
    ∃ e, GetBlock c1Tensor [9] = Except.error e :=
  C6_getblock_no_sector_error c1Tensor [9]
    (by decide) (by decide) (by decide) (by decide)

/-! ## C7: Get/PutBlock on diagonal and non-symmetric tensors -/

/-- A plain non-symmetric rank-2 tensor. -/
def nonSymTensor : UniTensor :=
  match mkUniTensor [⟨2, none⟩, ⟨2, none⟩] 1 none false false with
  | Except.ok t => t
  | Except.error _ => default

/-- Counterexample to C7 as stated: `GetBlock` on a non-symmetric tensor
does **not** fail — it returns the tensor itself (UniTensor.py lines
1687-1691 print a warning and `return self`). -/
theorem C7_counterexample_getblock_nonsym :
    GetBlock nonSymTensor [0] = Except.ok nonSymTensor := rfl

/-- C7 as amended: on any tensor that is diagonal or non-symmetric,
`PutBlock` always fails and leaves the tensor unchanged; `GetBlock` fails
on a diagonal tensor, but on a non-symmetric non-diagonal tensor it
returns the tensor itself instead of failing. -/
theorem C7_amended_diag_nonsym (t : UniTensor) (q : List Int) (b : PyBlockArg)
    (hbonds : t.bonds ≠ [])
    (h : t.is_diag = true ∨ (t.bonds.headD default).qnums = none) :
    ((PutBlock t b q).1.isOk = false ∧ (PutBlock t b q).2 = t) ∧
    (t.is_diag = true → ∃ e, GetBlock t q = Except.error e) ∧
    (t.is_diag = false → (t.bonds.headD default).qnums = none →
      GetBlock t q = Except.ok t) := by
  refine ⟨?_, ?_, ?_⟩
  · unfold PutBlock
    rw [if_neg hbonds]
    by_cases hq0 : (t.bonds.headD default).qnums = none
    · rw [if_pos hq0]; exact ⟨rfl, rfl⟩
    · rw [if_neg hq0]
      have hd : t.is_diag = true := h.resolve_right hq0
      by_cases hql : q.length = (t.bonds.headD default).nsym
      · rw [if_neg (by simpa using hql), if_pos hd]
        exact ⟨rfl, rfl⟩
      · rw [if_pos hql]
        exact ⟨rfl, rfl⟩
  · intro hd
    unfold GetBlock
    rw [if_pos hd]
    exact ⟨_, rfl⟩
  · intro hd hq0
    unfold GetBlock
    rw [if_neg (by simp [hd]), if_neg hbonds, if_pos hq0]

/-- A diagonal tensor with symmetric bonds, for the C7 witness. -/
def diagSymTensor : UniTensor :=
  match mkUniTensor [⟨2, some [[0], [1]]⟩, ⟨2, some [[0], [1]]⟩] 1 none true false with
  | Except.ok t => t
  | Except.error _ => default

theorem C7_amended_diag_nonsym_witness :
    (((PutBlock diagSymTensor PyBlockArg.other [0]).1.isOk = false ∧
      (PutBlock diagSymTensor PyBlockArg.other [0]).2 = diagSymTensor) ∧
    (diagSymTensor.is_diag = true →
      ∃ e, GetBlock diagSymTensor [0] = Except.error e) ∧
    (diagSymTensor.is_diag = false →
      (diagSymTensor.bonds.headD default).qnums = none →
      GetBlock diagSymTensor [0] = Except.ok diagSymTensor)) :=
  C7_amended_diag_nonsym diagSymTensor [0] PyBlockArg.other
    (by decide) (Or.inl (by decide))

/-! ## C2: block-form Put/GetBlock with several symmetry channels -/

/-- A block-form tensor with two symmetry channels; its single sector is
`[0, 0]`. -/
def c2Tensor : UniTensor :=
  match mkUniTensor [⟨1, some [[0, 0]]⟩, ⟨1, some [[0, 0]]⟩] 1 none false true with
  | Except.ok t => t
  | Except.error _ => default

/-- C2 failing input: on a block-form tensor with `nsym = 2`, `PutBlock`
and `GetBlock` raise numpy's array-truthiness `ValueError` even for the
exact stored sector `[0, 0]` (UniTensor.py lines 1497 and 1701 use
`if np.array(qnum) == self._BlockQnums[s]:`, whose multi-element comparison
cannot be used as a condition), so the PutBlock/GetBlock round trip of the
claim is impossible for any multi-channel block-form tensor. -/
theorem C2_blockform_multichannel_putget_fails :
    mkUniTensor [⟨1, some [[0, 0]]⟩, ⟨1, some [[0, 0]]⟩] 1 none false true =
      Except.ok c2Tensor ∧
    c2Tensor.BlockQnums = [[0, 0]] ∧
    (PutBlock c2Tensor (PyBlockArg.npArr 1 1 [7]) [0, 0]).1 =
      Except.error "ValueError: The truth value of an array with more than one element is ambiguous." ∧
    (PutBlock c2Tensor (PyBlockArg.npArr 1 1 [7]) [0, 0]).2 = c2Tensor ∧
    GetBlock c2Tensor [0, 0] =
      Except.error "ValueError: The truth value of an array with more than one element is ambiguous." :=
  ⟨rfl, rfl, rfl, rfl, rfl⟩

/-! ## C9: a failed PutBlock can leave the operand reshaped -/

/-- A symmetric dense rank-3 tensor of shape (1, 1, 1) with two in-bonds. -/
def c9Tensor : UniTensor :=
  match mkUniTensor [⟨1, some [[0]]⟩, ⟨1, some [[0]]⟩, ⟨1, some [[0]]⟩] 2
      none false false with
  | Except.ok t => t
  | Except.error _ => default

/-- C9 failing input: `PutBlock` with an unsupported block-argument type on
a symmetric dense tensor raises, but only **after** reshaping the storage to
its rank-2 matrix view (UniTensor.py line 1566); the error path never
executes the reshape back (line 1580), so the failed call leaves the
operand's storage shape changed from (1, 1, 1) to (1, 1). -/
theorem C9_putblock_error_leaves_reshaped_storage :
    (PutBlock c9Tensor PyBlockArg.other [0]).1 =
      Except.error "UniTensor.PutBlock [ERROR] the block can only be an np.array or a torch.Tensor" ∧
    c9Tensor.Storage = UTStorage.dense [1, 1, 1] [0] ∧
    (PutBlock c9Tensor PyBlockArg.other [0]).2.Storage =
      UTStorage.dense [1, 1] [0] ∧
    ¬ (PutBlock c9Tensor PyBlockArg.other [0]).2 = c9Tensor :=
  ⟨rfl, rfl, rfl, by decide⟩

/-! ## Row-major flat dense tensors: indexing, outer product, permutation -/

/-- Row-major flat offset of a multi-index in a shape. -/
def flatIdx : List Nat → List Nat → Nat
  | _ :: ds, i :: ixs => i * ds.prod + flatIdx ds ixs
  | _, _ => 0

/-- Inverse of `flatIdx`: the multi-index of a flat offset. -/
def unflatten : List Nat → Nat → List Nat
  | [], _ => []
  | _ :: ds, n => n / ds.prod :: unflatten ds (n % ds.prod)

/-- A multi-index lies inside a shape. -/
def ValidIdx (sh idx : List Nat) : Prop :=
  List.Forall₂ (fun i d => i < d) idx sh

/-- Element of a flat buffer `data` of shape `sh` at multi-index `idx`. -/
def elAtFlat (data : List Int) (sh idx : List Nat) : Int :=
  data.getD (flatIdx sh idx) 0

theorem flatIdx_lt {sh idx : List Nat} (h : ValidIdx sh idx) :
    flatIdx sh idx < sh.prod := by
  induction h with
  | nil => simp [flatIdx]
  | @cons i d ixs ds hid _ ih =>
    rw [flatIdx, List.prod_cons]
    calc i * ds.prod + flatIdx ds ixs < i * ds.prod + ds.prod := by omega
    _ = (i + 1) * ds.prod := by ring
    _ ≤ d * ds.prod := Nat.mul_le_mul_right _ hid

theorem unflatten_flatIdx {sh idx : List Nat} (h : ValidIdx sh idx) :
    unflatten sh (flatIdx sh idx) = idx := by
  induction h with
  | nil => rfl
  | @cons i d ixs ds _ htl ih =>
    have hlt : flatIdx ds ixs < ds.prod := flatIdx_lt htl
    rw [flatIdx, unflatten, Nat.mul_comm i ds.prod, Nat.mul_add_div (by omega),
      Nat.mul_add_mod, Nat.div_eq_of_lt hlt, Nat.mod_eq_of_lt hlt,
      Nat.add_zero, ih]

theorem flatIdx_append {sh1 idx1 sh2 idx2 : List Nat}
    (h : idx1.length = sh1.length) :
    flatIdx (sh1 ++ sh2) (idx1 ++ idx2) =
      flatIdx sh1 idx1 * sh2.prod + flatIdx sh2 idx2 := by
  induction sh1 generalizing idx1 with
  | nil =>
    rw [List.length_nil, List.length_eq_zero] at h
    subst h
    simp [flatIdx]
  | cons d ds ih =>
    cases idx1 with
    | nil => simp at h
    | cons i ixs =>
      simp only [List.length_cons, Nat.succ.injEq] at h
      simp only [List.cons_append, flatIdx, ih h, List.append_eq,
        List.prod_append]
      ring

theorem getD_range_map {α : Type} (f : Nat → α) {n i : Nat} (d : α) (h : i < n) :
    ((List.range n).map f).getD i d = f i := by
  rw [List.getD_eq_getElem _ d (by simpa using h), List.getElem_map,
    List.getElem_range]

theorem range_map_getD {α : Type} (l : List α) (d : α) :
    (List.range l.length).map (fun p => l.getD p d) = l := by
  apply List.ext_getElem (by simp)
  intro n h1 h2
  rw [List.getElem_map, List.getElem_range, List.getD_eq_getElem l d h2]

/-- `ValidIdx` gives pointwise bounds through `getD`. -/
theorem ValidIdx.getD_lt {sh idx : List Nat} (h : ValidIdx sh idx) {k : Nat}
    (hk : k < sh.length) : idx.getD k 0 < sh.getD k 0 := by
  induction h generalizing k with
  | nil => simp at hk
  | @cons i d ixs ds hid htl ih =>
    cases k with
    | zero => simpa using hid
    | succ m =>
      simp only [List.length_cons, Nat.succ_lt_succ_iff] at hk
      simpa using ih hk

theorem ValidIdx.length_eq {sh idx : List Nat} (h : ValidIdx sh idx) :
    idx.length = sh.length :=
  List.Forall₂.length_eq h

theorem ValidIdx.append {sh1 idx1 sh2 idx2 : List Nat}
    (h1 : ValidIdx sh1 idx1) (h2 : ValidIdx sh2 idx2) :
    ValidIdx (sh1 ++ sh2) (idx1 ++ idx2) :=
  List.rel_append h1 h2

/-- `torch.tensordot(a, b, dims=0)`: the outer product of two flat buffers,
entry `n` being `a[n / len(b)] * b[n % len(b)]`. -/
def outerData (a b : List Int) : List Int :=
  (List.range (a.length * b.length)).map
    (fun n => a.getD (n / b.length) 0 * b.getD (n % b.length) 0)

theorem outer_el {shA shB ia ib : List Nat} {a b : List Int}
    (ha : a.length = shA.prod) (hb : b.length = shB.prod)
    (hia : ValidIdx shA ia) (hib : ValidIdx shB ib) :
    elAtFlat (outerData a b) (shA ++ shB) (ia ++ ib) =
      elAtFlat a shA ia * elAtFlat b shB ib := by
  have hltA : flatIdx shA ia < shA.prod := flatIdx_lt hia
  have hltB : flatIdx shB ib < shB.prod := flatIdx_lt hib
  have hposB : 0 < shB.prod := by omega
  rw [elAtFlat, flatIdx_append hia.length_eq, outerData,
    getD_range_map _ _ (by rw [ha, hb]; calc
      flatIdx shA ia * shB.prod + flatIdx shB ib
          < flatIdx shA ia * shB.prod + shB.prod := by omega
      _ = (flatIdx shA ia + 1) * shB.prod := by ring
      _ ≤ shA.prod * shB.prod := Nat.mul_le_mul_right _ (by omega))]
  rw [hb, Nat.mul_comm (flatIdx shA ia) shB.prod, Nat.mul_add_div hposB,
    Nat.mul_add_mod, Nat.div_eq_of_lt hltB, Nat.mod_eq_of_lt hltB,
    Nat.add_zero]
  rfl

/-- `permute(mapper)`: shape of the permuted tensor. -/
def permuteShape (mapper sh : List Nat) : List Nat :=
  mapper.map (fun m => sh.getD m 0)

/-- `permute(mapper)` realized on a row-major flat buffer (torch keeps the
data and changes strides; a subsequent contiguous realization yields this
buffer): entry at permuted multi-index `idx` is the original entry at the
multi-index whose position `p` holds `idx[mapper.indexOf p]`. -/
def permuteData (mapper sh : List Nat) (data : List Int) : List Int :=
  (List.range (permuteShape mapper sh).prod).map (fun n =>
    elAtFlat data sh ((List.range sh.length).map (fun p =>
      (unflatten (permuteShape mapper sh) n).getD (mapper.indexOf p) 0)))

theorem permute_el {mapper sh idx : List Nat} {data : List Int}
    (h : ValidIdx (permuteShape mapper sh) idx) :
    elAtFlat (permuteData mapper sh data) (permuteShape mapper sh) idx =
      elAtFlat data sh ((List.range sh.length).map (fun p =>
        idx.getD (mapper.indexOf p) 0)) := by
  rw [elAtFlat, permuteData, getD_range_map _ _ (flatIdx_lt h),
    unflatten_flatIdx h]

/-! ## Stable boolean argsort (np.argsort on the in/out flags) -/

/-- Insertion step of the stable argsort on a boolean key: the incoming
index `i` (earlier in the original order than everything already placed)
stops in front of the first entry whose key is not smaller than its own. -/
def insertB (key : Nat → Bool) (i : Nat) : List Nat → List Nat
  | [] => [i]
  | j :: js =>
    if key j = true ∨ key i = false then i :: j :: js
    else j :: insertB key i js

/-- `np.argsort(new_io)` on the boolean in/out flags (UniTensor.py lines
2085, 2115).  numpy's default sort runs a plain insertion sort on the short
partitions arising here, which is stable, so the argsort of a False/True
key list is modelled as a stable insertion argsort: all False (in-bond)
positions before all True (out-bond) positions, original order preserved
within each side. -/
def argsortB (key : Nat → Bool) (l : List Nat) : List Nat :=
  l.foldr (insertB key) []

theorem insertB_of_key_false {key : Nat → Bool} {i : Nat}
    (hi : key i = false) (l : List Nat) : insertB key i l = i :: l := by
  cases l with
  | nil => rfl
  | cons j js => rw [insertB, if_pos (Or.inr hi)]

theorem insertB_all_true {key : Nat → Bool} {i : Nat} (l : List Nat)
    (hl : ∀ j ∈ l, key j = true) : insertB key i l = i :: l := by
  cases l with
  | nil => rfl
  | cons j js => rw [insertB, if_pos (Or.inl (hl j (by simp)))]

theorem insertB_skip_false {key : Nat → Bool} {i : Nat} (hi : key i = true)
    (A : List Nat) (hA : ∀ j ∈ A, key j = false) (B : List Nat) :
    insertB key i (A ++ B) = A ++ insertB key i B := by
  induction A with
  | nil => rfl
  | cons j js ih =>
    rw [List.cons_append, insertB,
      if_neg (by rw [hA j (by simp), hi]; simp), List.cons_append,
      ih (fun x hx => hA x (by simp [hx]))]

/-- Stability characterization: the stable boolean argsort of a list of
indices is its False-keyed entries followed by its True-keyed entries, each
side in original order. -/
theorem argsortB_eq_filter (key : Nat → Bool) (l : List Nat) :
    argsortB key l =
      l.filter (fun i => key i = false) ++ l.filter (fun i => key i = true) := by
  induction l with
  | nil => rfl
  | cons i xs ih =>
    rw [argsortB, List.foldr_cons]
    have ihr : xs.foldr (insertB key) [] =
        xs.filter (fun i => key i = false) ++ xs.filter (fun i => key i = true) := ih
    rw [ihr]
    cases hi : key i with
    | false =>
      rw [insertB_of_key_false hi]
      simp only [List.filter_cons, hi]
      simp
    | true =>
      rw [insertB_skip_false hi _ (fun j hj => by
          simpa using (List.mem_filter.mp hj).2) _]
      rw [insertB_all_true _ (fun j hj => by
          simpa using (List.mem_filter.mp hj).2)]
      simp only [List.filter_cons, hi]
      simp

/-! ## Contract -/

/-- `torch.diag(v)` for a 1-D buffer: the flat data of the dense square
matrix with `v` on the diagonal (UniTensor.py lines 2067, 2072, 2100,
2105). -/
def diagDense (d : List Int) : List Int :=
  (List.range (d.length * d.length)).map (fun n =>
    if n / d.length = n % d.length then d.getD (n / d.length) 0 else 0)

/-- The shape of the dense tensor `tmpa` a Contract operand contributes:
its storage for a dense tensor, the expanded square for a diagonal one
(`tmpa = torch.diag(a.Storage) if a.is_diag else a.Storage`, lines
2066-2074).  Block-list storage has no dense form (Contract exits first). -/
def UniTensor.denseShape (t : UniTensor) : List Nat :=
  if t.is_diag then
    match t.Storage with
    | UTStorage.diag d => [d.length, d.length]
    | _ => []
  else
    match t.Storage with
    | UTStorage.dense sh _ => sh
    | _ => []

/-- The row-major data of `tmpa` (see `UniTensor.denseShape`). -/
def UniTensor.denseData (t : UniTensor) : List Int :=
  if t.is_diag then
    match t.Storage with
    | UTStorage.diag d => diagDense d
    | _ => []
  else
    match t.Storage with
    | UTStorage.dense _ d => d
    | _ => []

/-- Semantic element of a (dense or diagonal) tensor at a multi-index. -/
def UniTensor.elAt (t : UniTensor) (idx : List Nat) : Int :=
  elAtFlat t.denseData t.denseShape idx

/-- Ascending insertion for `np.intersect1d`'s sort. -/
def insertIntAsc (x : Int) : List Int → List Int
  | [] => [x]
  | y :: ys => if y < x then y :: insertIntAsc x ys else x :: y :: ys

/-- Sort a list of integers ascending (insertion sort). -/
def sortIntAsc (l : List Int) : List Int :=
  l.foldr insertIntAsc []

/-- `np.intersect1d(a, b)`: ascending sorted distinct common values. -/
def intersect1d (a b : List Int) : List Int :=
  sortIntAsc ((a.filter (fun x => decide (x ∈ b))).dedup)

theorem intersect1d_nil_of_disjoint {a b : List Int}
    (h : ∀ x ∈ a, x ∉ b) : intersect1d a b = [] := by
  rw [intersect1d, List.filter_eq_nil_iff.mpr (by
    intro x hx
    simpa using h x hx)]
  rfl

/-- `qnums.all()` on a numpy integer array: every entry is truthy
(non-zero).  This is the aggregate the Contract qnum check actually
compares (UniTensor.py line 2060). -/
def npAllNonzero (q : List (List Int)) : Bool :=
  q.all (fun row => row.all (fun x => decide (¬ x = 0)))

/-- `np.setdiff1d(np.arange(rank), cpos)`: ascending positions not being
contracted (UniTensor.py lines 2063-2064). -/
def keepIdxs (rank : Nat) (cpos : List Nat) : List Nat :=
  (List.range rank).filter (fun i => decide (¬ i ∈ cpos))

/-- All multi-indices of a shape, row-major order. -/
def allIdx : List Nat → List (List Nat)
  | [] => [[]]
  | d :: ds => (List.range d).flatMap (fun i => (allIdx ds).map (i :: ·))

/-- Assemble a full multi-index from a contracted-position index `cIdx`
(slot `k` belongs to contracted position `cpos[k]`) and a kept-position
index `kIdx` (in ascending kept-position order). -/
def mergeIdx (rank : Nat) (cpos : List Nat) (cIdx kIdx : List Nat) : List Nat :=
  (List.range rank).map (fun p =>
    if decide (p ∈ cpos) then cIdx.getD (cpos.indexOf p) 0
    else kIdx.getD ((keepIdxs rank cpos).indexOf p) 0)

/-- `torch.tensordot(tmpa, tmpb, dims=(aInd, bInd))` (UniTensor.py line
2076): kept axes of `a` in original order then kept axes of `b`; each
output entry sums the products over the contracted multi-indices. -/
def tdot (shA : List Nat) (dA : List Int) (shB : List Nat) (dB : List Int)
    (aInd bInd : List Nat) : List Nat × List Int :=
  let keepA := keepIdxs shA.length aInd
  let keepB := keepIdxs shB.length bInd
  let outSh := keepA.map (fun i => shA.getD i 0) ++ keepB.map (fun i => shB.getD i 0)
  (outSh,
   (List.range outSh.prod).map (fun n =>
     ((allIdx (aInd.map (fun i => shA.getD i 0))).map (fun cIdx =>
       elAtFlat dA shA
         (mergeIdx shA.length aInd cIdx ((unflatten outSh n).take keepA.length)) *
       elAtFlat dB shB
         (mergeIdx shB.length bInd cIdx ((unflatten outSh n).drop keepA.length)))).sum))

/-- The in/out flags of the concatenated axes in the outer-product branch
(UniTensor.py line 2112): axis `x` of `a` is out iff `x >= a.N_inbond`,
then the same for `b`. -/
def dpNio (a b : UniTensor) : List Bool :=
  (List.range a.bonds.length).map (fun x => decide (a.N_inbond ≤ x)) ++
  (List.range b.bonds.length).map (fun x => decide (b.N_inbond ≤ x))

/-- `np.argsort(new_io)` of the outer-product branch (line 2115). -/
def dpMapper (a b : UniTensor) : List Nat :=
  argsortB (fun i => (dpNio a b).getD i false)
    (List.range (a.bonds.length + b.bonds.length))

/-- The outer (direct) product branch of `Contract` (UniTensor.py lines
2096-2124): concatenate bonds and labels of `a` then `b`, outer-multiply
the buffers, and (when there is at least one bond) re-sort all axes by
`np.argsort` of the in/out flags. -/
def directProduct (a b : UniTensor) : UniTensor :=
  if a.bonds.length + b.bonds.length = 0 then
    { bonds := [], labels := [], N_inbond := a.N_inbond + b.N_inbond,
      is_diag := false, is_blockform := false,
      BlockMapperIn := [], BlockMapperOut := [], BlockQnums := [],
      Storage := UTStorage.dense (a.denseShape ++ b.denseShape)
        (outerData a.denseData b.denseData) }
  else
    { bonds := (dpMapper a b).map (fun m => (a.bonds ++ b.bonds).getD m default),
      labels := (dpMapper a b).map (fun m => (a.labels ++ b.labels).getD m 0),
      N_inbond := a.N_inbond + b.N_inbond,
      is_diag := false, is_blockform := false,
      BlockMapperIn := [], BlockMapperOut := [], BlockQnums := [],
      Storage := UTStorage.dense
        (permuteShape (dpMapper a b) (a.denseShape ++ b.denseShape))
        (permuteData (dpMapper a b) (a.denseShape ++ b.denseShape)
          (outerData a.denseData b.denseData)) }

/-- The common-label branch of `Contract` (UniTensor.py lines 2052-2094):
symmetric/non-symmetric mixing check, the `qnums.all()` aggregate
comparison for each contracted bond pair, `torch.tensordot` over the
matched axes, then the in/out re-sort of the surviving axes with
`N_inbond = len(np.argwhere(new_io == 0))`. -/
def contractCommon (a b : UniTensor) : Except String UniTensor :=
  let same := intersect1d a.labels b.labels
  let aInd := same.map (fun v => a.labels.indexOf v)
  let bInd := same.map (fun v => b.labels.indexOf v)
  if xor (¬ (a.bonds.headD default).qnums = none)
      (¬ (b.bonds.headD default).qnums = none) then
    .error "Contract(a,b) [ERROR] contract Symm TN with non-sym tensor"
  else if (¬ (a.bonds.headD default).qnums = none) ∧
      ¬ ((List.range aInd.length).all (fun i =>
        npAllNonzero ((a.bonds.getD (aInd.getD i 0) default).qnums.getD []) ==
        npAllNonzero ((b.bonds.getD (bInd.getD i 0) default).qnums.getD []))) then
    .error "Contact(a,b) [ERROR] contract Bonds that has qnums mismatch."
  else if ¬ aInd.map (fun i => a.denseShape.getD i 0) =
      bInd.map (fun i => b.denseShape.getD i 0) then
    .error "RuntimeError: tensordot contracted dimensions mismatch"
  else
    let p := tdot a.denseShape a.denseData b.denseShape b.denseData aInd bInd
    let keepA := keepIdxs a.labels.length aInd
    let keepB := keepIdxs b.labels.length bInd
    let nio := keepA.map (fun x => decide (a.N_inbond ≤ x)) ++
      keepB.map (fun x => decide (b.N_inbond ≤ x))
    let newBonds := keepA.map (fun i => a.bonds.getD i default) ++
      keepB.map (fun i => b.bonds.getD i default)
    let newLabels := keepA.map (fun i => a.labels.getD i 0) ++
      keepB.map (fun i => b.labels.getD i 0)
    let mapper := argsortB (fun i => nio.getD i false) (List.range nio.length)
    if newBonds.length = 0 then
      .ok { bonds := [], labels := [], N_inbond := nio.count false,
            is_diag := false, is_blockform := false,
            BlockMapperIn := [], BlockMapperOut := [], BlockQnums := [],
            Storage := UTStorage.dense p.1 p.2 }
    else
      .ok { bonds := mapper.map (fun m => newBonds.getD m default),
            labels := mapper.map (fun m => newLabels.getD m 0),
            N_inbond := nio.count false,
            is_diag := false, is_blockform := false,
            BlockMapperIn := [], BlockMapperOut := [], BlockQnums := [],
            Storage := UTStorage.dense (permuteShape mapper p.1)
              (permuteData mapper p.1 p.2) }

/-- `Contract(a, b)` (UniTensor.py lines 1958-2127). -/
def Contract (a b : UniTensor) : Except String UniTensor :=
  if a.is_blockform ∨ b.is_blockform then
    .error "exit(1): contract for block form tensor is under developing."
  else if intersect1d a.labels b.labels = [] then
    .ok (directProduct a b)
  else
    contractCommon a b

/-! ## C4: quantum-number mismatch across contracted bonds -/

/-- Symmetric rank-2 tensor with qnum `+1` on both bonds, labels 0, 1. -/
def c4A : UniTensor :=
  match mkUniTensor [⟨1, some [[1]]⟩, ⟨1, some [[1]]⟩] 1 (some [0, 1]) false false with
  | Except.ok t => t
  | Except.error _ => default

/-- Symmetric rank-2 tensor with qnum `+2` on both bonds, labels 1, 2. -/
def c4B : UniTensor :=
  match mkUniTensor [⟨1, some [[2]]⟩, ⟨1, some [[2]]⟩] 1 (some [1, 2]) false false with
  | Except.ok t => t
  | Except.error _ => default

/-- C4 failing input: the bonds contracted over the shared label 1 carry
different quantum numbers (`[[1]]` vs `[[2]]`), yet `Contract` succeeds and
returns a tensor.  The source's check (UniTensor.py line 2060) compares the
aggregates `a.bonds[..].qnums.all() == b.bonds[..].qnums.all()` — array
truthiness, not array content — so any two all-nonzero qnum arrays pass,
contradicting the function's own docstring rule 2 (line 1963) and the
spec's conservation-law rejection. -/
theorem C4_qnum_mismatch_contract_accepted :
    intersect1d c4A.labels c4B.labels = [1] ∧
    (c4A.bonds.getD (c4A.labels.indexOf 1) default).qnums = some [[1]] ∧
    (c4B.bonds.getD (c4B.labels.indexOf 1) default).qnums = some [[2]] ∧
    ¬ (c4A.bonds.getD (c4A.labels.indexOf 1) default).qnums =
      (c4B.bonds.getD (c4B.labels.indexOf 1) default).qnums ∧
    ∃ c, Contract c4A c4B = Except.ok c :=
  ⟨rfl, rfl, rfl, by decide, ⟨_, rfl⟩⟩

/-! ## C3: outer-product contraction -/

/-- Well-formedness of a dense or diagonal tensor as the constructor
produces it: at least one bond, one label per bond, flags matching the
storage variant, and storage shape/extent matching the bond dimensions. -/
def storageFlagOk (t : UniTensor) : Bool :=
  match t.Storage, t.is_diag with
  | UTStorage.dense _ _, false => true
  | UTStorage.diag _, true => true
  | _, _ => false

def WfDense (t : UniTensor) : Prop :=
  t.bonds ≠ [] ∧
  t.labels.length = t.bonds.length ∧
  t.is_blockform = false ∧
  storageFlagOk t = true ∧
  t.denseShape = t.bonds.map Bond.dim ∧
  t.denseData.length = t.denseShape.prod

/-- Whether concatenated axis `i` (axes of `a` then axes of `b`) sits on
the out side of its origin tensor. -/
def concatIsOut (a b : UniTensor) (i : Nat) : Bool :=
  if i < a.bonds.length then decide (a.N_inbond ≤ i)
  else decide (b.N_inbond ≤ i - a.bonds.length)

theorem dpNio_getD (a b : UniTensor) {i : Nat}
    (h : i < a.bonds.length + b.bonds.length) :
    (dpNio a b).getD i false = concatIsOut a b i := by
  rw [dpNio, concatIsOut]
  by_cases hi : i < a.bonds.length
  · rw [List.getD_append _ _ _ _ (by simpa using hi), if_pos hi,
      getD_range_map _ _ hi]
  · rw [List.getD_append_right _ _ _ _ (by simpa using hi), if_neg hi,
      List.length_map, List.length_range,
      getD_range_map _ _ (by omega)]

theorem dpMapper_eq_filter (a b : UniTensor) :
    dpMapper a b =
      ((List.range (a.bonds.length + b.bonds.length)).filter
        (fun i => concatIsOut a b i = false)) ++
      ((List.range (a.bonds.length + b.bonds.length)).filter
        (fun i => concatIsOut a b i = true)) := by
  rw [dpMapper, argsortB_eq_filter]
  congr 1 <;>
    exact List.filter_congr (fun i hi => by
      rw [dpNio_getD a b (List.mem_range.mp hi)])

theorem length_filter_bool_split (l : List Nat) (p : Nat → Bool) :
    (l.filter (fun i => p i = false)).length +
      (l.filter (fun i => p i = true)).length = l.length := by
  induction l with
  | nil => rfl
  | cons x xs ih =>
    rw [List.filter_cons, List.filter_cons]
    cases hx : p x
    · rw [if_pos (by simp [hx]), if_neg (by simp [hx]), List.length_cons,
        List.length_cons]
      omega
    · rw [if_neg (by simp [hx]), if_pos (by simp [hx]), List.length_cons,
        List.length_cons]
      omega

theorem dpMapper_length (a b : UniTensor) :
    (dpMapper a b).length = a.bonds.length + b.bonds.length := by
  rw [dpMapper_eq_filter, List.length_append, length_filter_bool_split,
    List.length_range]

theorem mem_dpMapper_of_lt (a b : UniTensor) {p : Nat}
    (h : p < a.bonds.length + b.bonds.length) : p ∈ dpMapper a b := by
  rw [dpMapper_eq_filter]
  rcases hx : concatIsOut a b p with hf | ht
  · exact List.mem_append_left _ (List.mem_filter.mpr ⟨List.mem_range.mpr h, by simp [hx]⟩)
  · exact List.mem_append_right _ (List.mem_filter.mpr ⟨List.mem_range.mpr h, by simp [hx]⟩)

theorem lt_of_mem_dpMapper (a b : UniTensor) {p : Nat}
    (h : p ∈ dpMapper a b) : p < a.bonds.length + b.bonds.length := by
  rw [dpMapper_eq_filter, List.mem_append] at h
  rcases h with h | h <;>
    exact List.mem_range.mp (List.mem_filter.mp h).1

theorem getD_map_indexOf {α : Type} (l : List Nat) (f : Nat → α) (d : α)
    {p : Nat} (hp : p ∈ l) :
    (l.map f).getD (l.indexOf p) d = f p := by
  have hlt : l.indexOf p < l.length := List.indexOf_lt_length.mpr hp
  rw [List.getD_eq_getElem _ d (by simpa using hlt), List.getElem_map,
    List.getElem_indexOf hlt]

/-- The property asserted by claim C3 for `c = Contract(a, b)` when `a` and
`b` share no label: rank adds, `N_inbond` adds, bonds and labels are the
A-then-B concatenation re-sorted stably so every in-bond precedes every
out-bond, and the element at the re-sorted position of concatenated index
`(i..., j...)` is `A[i...] * B[j...]`. -/
def C3Prop (a b c : UniTensor) : Prop :=
  c.bonds.length = a.bonds.length + b.bonds.length ∧
  c.N_inbond = a.N_inbond + b.N_inbond ∧
  c.bonds =
    ((List.range (a.bonds.length + b.bonds.length)).filter
      (fun i => concatIsOut a b i = false)).map
        (fun m => (a.bonds ++ b.bonds).getD m default) ++
    ((List.range (a.bonds.length + b.bonds.length)).filter
      (fun i => concatIsOut a b i = true)).map
        (fun m => (a.bonds ++ b.bonds).getD m default) ∧
  c.labels =
    ((List.range (a.bonds.length + b.bonds.length)).filter
      (fun i => concatIsOut a b i = false)).map
        (fun m => (a.labels ++ b.labels).getD m 0) ++
    ((List.range (a.bonds.length + b.bonds.length)).filter
      (fun i => concatIsOut a b i = true)).map
        (fun m => (a.labels ++ b.labels).getD m 0) ∧
  (∀ ia ib, ValidIdx (a.bonds.map Bond.dim) ia →
    ValidIdx (b.bonds.map Bond.dim) ib →
    c.elAt ((((List.range (a.bonds.length + b.bonds.length)).filter
        (fun i => concatIsOut a b i = false)) ++
      ((List.range (a.bonds.length + b.bonds.length)).filter
        (fun i => concatIsOut a b i = true))).map
          (fun m => (ia ++ ib).getD m 0)) =
      a.elAt ia * b.elAt ib)

/-- C3: contracting two well-formed non-block-form tensors with disjoint
label sets is the outer product with the stable in/out axis re-sort. -/
theorem C3_outer_product_contract (a b : UniTensor)
    (hwa : WfDense a) (hwb : WfDense b)
    (hdisj : ∀ l ∈ a.labels, l ∉ b.labels) :
    ∃ c, Contract a b = Except.ok c ∧ C3Prop a b c := by
  obtain ⟨hna, hla, hbfa, -, hsha, hda⟩ := hwa
  obtain ⟨hnb, hlb, hbfb, -, hshb, hdb⟩ := hwb
  have hra : 0 < a.bonds.length := List.length_pos.mpr hna
  have hn0 : ¬ (a.bonds.length + b.bonds.length = 0) := by omega
  have hC : Contract a b = Except.ok (directProduct a b) := by
    rw [Contract, if_neg (by simp [hbfa, hbfb]),
      if_pos (intersect1d_nil_of_disjoint hdisj)]
  have hconcat_len : (a.denseShape ++ b.denseShape).length =
      a.bonds.length + b.bonds.length := by
    rw [List.length_append, hsha, hshb, List.length_map, List.length_map]
  refine ⟨directProduct a b, hC, ?_, ?_, ?_, ?_, ?_⟩
  · rw [directProduct, if_neg hn0]
    simp only [List.length_map, dpMapper_length]
  · rw [directProduct, if_neg hn0]
  · rw [directProduct, if_neg hn0]
    show (dpMapper a b).map _ = _
    rw [dpMapper_eq_filter, List.map_append]
  · rw [directProduct, if_neg hn0]
    show (dpMapper a b).map _ = _
    rw [dpMapper_eq_filter, List.map_append]
  · intro ia ib hia hib
    rw [← dpMapper_eq_filter a b]
    have hia2 : ValidIdx a.denseShape ia := by rw [hsha]; exact hia
    have hib2 : ValidIdx b.denseShape ib := by rw [hshb]; exact hib
    have hvalid_concat : ValidIdx (a.denseShape ++ b.denseShape) (ia ++ ib) :=
      hia2.append hib2
    have hc_shape : (directProduct a b).denseShape =
        permuteShape (dpMapper a b) (a.denseShape ++ b.denseShape) := by
      rw [directProduct, if_neg hn0]; rfl
    have hc_data : (directProduct a b).denseData =
        permuteData (dpMapper a b) (a.denseShape ++ b.denseShape)
          (outerData a.denseData b.denseData) := by
      rw [directProduct, if_neg hn0]; rfl
    rw [UniTensor.elAt, hc_shape, hc_data]
    have hidx_valid : ValidIdx
        (permuteShape (dpMapper a b) (a.denseShape ++ b.denseShape))
        ((dpMapper a b).map (fun m => (ia ++ ib).getD m 0)) := by
      rw [ValidIdx, permuteShape, List.forall₂_map_left_iff,
        List.forall₂_map_right_iff, List.forall₂_same]
      intro x hx
      exact hvalid_concat.getD_lt
        (by rw [hconcat_len]; exact lt_of_mem_dpMapper a b hx)
    rw [permute_el hidx_valid]
    have hinner : (List.range (a.denseShape ++ b.denseShape).length).map
        (fun p => ((dpMapper a b).map (fun m => (ia ++ ib).getD m 0)).getD
          ((dpMapper a b).indexOf p) 0) = ia ++ ib := by
      have hlen2 : (a.denseShape ++ b.denseShape).length = (ia ++ ib).length := by
        rw [List.length_append ia ib, hia2.length_eq, hib2.length_eq,
          List.length_append]
      rw [List.map_congr_left (fun p hp => by
        exact getD_map_indexOf (dpMapper a b) _ 0
          (mem_dpMapper_of_lt a b
            (by rw [← hconcat_len]; exact List.mem_range.mp hp)))]
      rw [hlen2, range_map_getD]
    rw [hinner]
    exact outer_el hda hdb hia2 hib2

/-- Concrete operands for the C3 witness: a 2x3 tensor with one in-bond
and a length-2 vector with one in-bond, disjoint labels. -/
def c3A : UniTensor :=
  { bonds := [⟨2, none⟩, ⟨3, none⟩], labels := [4, 3], N_inbond := 1,
    is_diag := false, is_blockform := false,
    BlockMapperIn := [], BlockMapperOut := [], BlockQnums := [],
    Storage := UTStorage.dense [2, 3] [1, 2, 3, 4, 5, 6] }

def c3B : UniTensor :=
  { bonds := [⟨2, none⟩], labels := [7], N_inbond := 1,
    is_diag := false, is_blockform := false,
    BlockMapperIn := [], BlockMapperOut := [], BlockQnums := [],
    Storage := UTStorage.dense [2] [10, 20] }

theorem C3_outer_product_contract_witness :
    ∃ c, Contract c3A c3B = Except.ok c ∧ C3Prop c3A c3B c :=
  C3_outer_product_contract c3A c3B
    (by constructor <;> simp [c3A, UniTensor.denseShape, UniTensor.denseData, storageFlagOk])
    (by constructor <;> simp [c3B, UniTensor.denseShape, UniTensor.denseData, storageFlagOk])
    (by decide)

/-! ## CombineBonds -/

/-- The assembly stage of `_CombineBonds` (UniTensor.py lines 2276-2316),
after validation and after any `new_label` overwrite has produced `lbls`:
`xInd` are the positions of the bonds to combine (in ascending order of
their label values, as `np.intersect1d` returns them), the combined bond is
built by repeated `combine` onto the bond at `xInd[0]`, and the merged axis
goes to the front (in-side) or the back (out-side) according to whether
`xInd[0]` is an in-bond, unless `is_inbond` forces the side.  The storage
is permuted so the combined axes are adjacent, realized contiguous, and the
run is collapsed into one dimension. -/
def combineAssemble (t : UniTensor) (xInd : List Nat) (lbls : List Int)
    (isInbond : Option Bool) : UniTensor :=
  let idxNo := keepIdxs t.labels.length xInd
  let sh := match t.Storage with | UTStorage.dense s _ => s | _ => []
  let data := match t.Storage with | UTStorage.dense _ d => d | _ => []
  let combinedDim := (xInd.map (fun i => sh.getD i 0)).prod
  let noCombDims := idxNo.map (fun i => sh.getD i 0)
  let cb := (xInd.drop 1).foldl
    (fun acc i => acc.combinePair (t.bonds.getD i default))
    (t.bonds.getD (xInd.headD 0) default)
  let adj := ((xInd.drop 1).filter (fun i => decide (i < t.N_inbond))).length
  if t.N_inbond ≤ xInd.headD 0 then
    -- the bond at xInd[0] is an out-bond (line 2279)
    if isInbond = some true then
      { bonds := cb :: idxNo.map (fun i => t.bonds.getD i default),
        labels := lbls.getD (xInd.headD 0) 0 :: idxNo.map (fun i => lbls.getD i 0),
        N_inbond := t.N_inbond - adj + 1,
        is_diag := false, is_blockform := false,
        BlockMapperIn := [], BlockMapperOut := [], BlockQnums := [],
        Storage := UTStorage.dense (combinedDim :: noCombDims)
          (permuteData (xInd ++ idxNo) sh data) }
    else
      { bonds := idxNo.map (fun i => t.bonds.getD i default) ++ [cb],
        labels := idxNo.map (fun i => lbls.getD i 0) ++ [lbls.getD (xInd.headD 0) 0],
        N_inbond := t.N_inbond - adj,
        is_diag := false, is_blockform := false,
        BlockMapperIn := [], BlockMapperOut := [], BlockQnums := [],
        Storage := UTStorage.dense (noCombDims ++ [combinedDim])
          (permuteData (idxNo ++ xInd) sh data) }
  else
    if isInbond = some false then
      { bonds := idxNo.map (fun i => t.bonds.getD i default) ++ [cb],
        labels := idxNo.map (fun i => lbls.getD i 0) ++ [lbls.getD (xInd.headD 0) 0],
        N_inbond := t.N_inbond - adj - 1,
        is_diag := false, is_blockform := false,
        BlockMapperIn := [], BlockMapperOut := [], BlockQnums := [],
        Storage := UTStorage.dense (noCombDims ++ [combinedDim])
          (permuteData (idxNo ++ xInd) sh data) }
    else
      { bonds := cb :: idxNo.map (fun i => t.bonds.getD i default),
        labels := lbls.getD (xInd.headD 0) 0 :: idxNo.map (fun i => lbls.getD i 0),
        N_inbond := t.N_inbond - adj,
        is_diag := false, is_blockform := false,
        BlockMapperIn := [], BlockMapperOut := [], BlockQnums := [],
        Storage := UTStorage.dense (combinedDim :: noCombDims)
          (permuteData (xInd ++ idxNo) sh data) }

/-- `UniTensor.CombineBonds` followed by `_CombineBonds` (UniTensor.py
lines 1126-1133 and 2241-2316): validation in source order, the
`new_label` collision check and overwrite, then assembly. -/
def CombineBondsFn (t : UniTensor) (lblsToComb : List Int)
    (isInbond : Option Bool) (newLabel : Option Int) :
    Except String UniTensor :=
  if lblsToComb.length < 2 then
    .error "CombineBonds [ERROR] the number of bond to combine should be >1"
  else if t.is_blockform then
    .error "exit(1): CombineBonds for block form tensor is under developing"
  else if t.is_diag then
    .error "_CombineBonds [ERROR] CombineBonds doesn't support diagonal matrix."
  else if t.labels.length < lblsToComb.length then
    .error "_CombineBonds [ERROR] the # of label_to_combine should be <= rank of UniTensor"
  else
    let same := intersect1d t.labels lblsToComb
    let xInd := same.map (fun v => t.labels.indexOf v)
    if ¬ same.length = lblsToComb.length then
      .error "_CombineBonds [ERROR] label_to_combine doesn't exists in the UniTensor"
    else
      match newLabel with
      | none => .ok (combineAssemble t xInd t.labels isInbond)
      | some nl =>
        -- collision check, lines 2269-2274: against the surviving labels
        -- and also against the labels of the other combined bonds
        if nl ∈ (keepIdxs t.labels.length xInd).map (fun i => t.labels.getD i 0) ∨
            nl ∈ (xInd.drop 1).map (fun i => t.labels.getD i 0) then
          .error "_CombineBonds [ERROR] cannot set new_label as there will be duplicate bond with this label after combined"
        else
          .ok (combineAssemble t xInd (t.labels.set (xInd.headD 0) nl) isInbond)

/-! ## C5: default side/label of the merged axis -/

/-- Dense rank-3 tensor with labels `[3, 4, 5]`, one in-bond, dims
`(2, 3, 4)`. -/
def c5T : UniTensor :=
  { bonds := [⟨2, none⟩, ⟨3, none⟩, ⟨4, none⟩], labels := [3, 4, 5],
    N_inbond := 1, is_diag := false, is_blockform := false,
    BlockMapperIn := [], BlockMapperOut := [], BlockQnums := [],
    Storage := UTStorage.dense [2, 3, 4] (List.replicate 24 0) }

/-- C5 failing input: combining labels `[3, 4]` of `c5T` with defaults.
The combined bonds sit at indices 0 (label 3, the in-bond) and 1 (label 4,
an out-bond); the highest-index combined bond is index 1, so the claim (and
the method's own docstring, lines 1024 and 1031) places the merged axis on
the out side with label 4.  The code instead keys on `x_ind[0]` — the
position of the *smallest label value*, as `np.intersect1d` orders it
(line 2253) — merging onto index 0: the result keeps `N_inbond = 1` with
the merged axis first (in-side) and label 3. -/
theorem C5_combine_default_keys_on_smallest_label :
    ∃ u, CombineBondsFn c5T [3, 4] none none = Except.ok u ∧
      u.labels = [3, 5] ∧
      u.N_inbond = 1 ∧
      u.bonds.map Bond.dim = [6, 4] ∧
      c5T.labels.getD 1 0 = 4 ∧
      c5T.N_inbond ≤ 1 ∧
      ¬ u.labels.getD 0 0 = 4 :=
  ⟨_, rfl, rfl, rfl, rfl, rfl, by decide, by decide⟩

/-! ## C10: UniTensor equality -/

/-- The values a Python `==` comparison can receive on its right. -/
inductive PyVal where
  | ut (t : UniTensor)
  | other
deriving DecidableEq

/-- Modelled from the spec: `Bond.__eq__` (from the missing `Bond.py`):
bonds are equal when dimension and quantum numbers agree. -/
def bondEqPy (x y : Bond) : Bool :=
  x.dim == y.dim && x.qnums == y.qnums

/-- `UniTensor.__eq__` (UniTensor.py lines 492-515): flags first
(short-circuiting, so mismatched flags never touch the storage), then
`self.Storage.shape == rhs.Storage.shape` — an `AttributeError` when the
storage is a block list — then bond count, then elementwise bonds and
labels.  Contents of storage are never compared.  A non-UniTensor
right-hand side raises. -/
def eqPy (a : UniTensor) (rhs : PyVal) : Except String Bool :=
  match rhs with
  | PyVal.other =>
    .error "Bond.__eq__ [ERROR] invalid comparison between Bond object and other type class."
  | PyVal.ut b =>
    if a.is_diag == b.is_diag && a.is_blockform == b.is_blockform then
      match storageShapeE a with
      | .error e => .error e
      | .ok sa =>
        match storageShapeE b with
        | .error e => .error e
        | .ok sb =>
          if sa == sb && a.bonds.length == b.bonds.length then
            .ok ((List.range a.bonds.length).all (fun i =>
                bondEqPy (a.bonds.getD i default) (b.bonds.getD i default)) &&
              (List.range a.labels.length).all (fun i =>
                a.labels.getD i 0 == b.labels.getD i 0))
          else .ok false
    else .ok false

/-- Whether the storage is not a Python block list. -/
def UTStorage.noBlockList : UTStorage → Bool
  | UTStorage.blocks _ => false
  | _ => true

/-- A block-form tensor (one channel, sectors `[1]` and `[0]`). -/
def c10T : UniTensor :=
  match mkUniTensor [⟨2, some [[0], [1]]⟩, ⟨2, some [[1], [0]]⟩] 1 none false true with
  | Except.ok t => t
  | Except.error _ => default

/-- Counterexample to C10 as stated: comparing a block-form tensor with
itself — metadata agreeing on everything — raises an `AttributeError`
(`self.Storage` is a Python list with no `.shape`, line 507) instead of
returning `True`. -/
theorem C10_counterexample_blockform_eq_raises :
    eqPy c10T (PyVal.ut c10T) =
      Except.error "AttributeError: list object has no attribute shape" := rfl

/-- C10 as amended: restricted to non-block-list storage, equality depends
only on the structural metadata — flags, storage shape, bonds and labels —
and never on the storage contents; comparing with a non-UniTensor raises.
On block-form operands with matching flags the comparison raises an
`AttributeError` instead of returning `True`
(see `C10_counterexample_blockform_eq_raises`). -/
theorem C10_amended_eq_metadata_only (a b : UniTensor)
    (ha : a.Storage.noBlockList = true) (_hb : b.Storage.noBlockList = true)
    (hfd : a.is_diag = b.is_diag) (hfb : a.is_blockform = b.is_blockform)
    (hshape : storageShapeE a = storageShapeE b)
    (hbonds : a.bonds = b.bonds) (hlabels : a.labels = b.labels) :
    eqPy a (PyVal.ut b) = Except.ok true ∧
    ∃ e, eqPy a PyVal.other = Except.error e := by
  constructor
  · obtain ⟨sa, hsa⟩ : ∃ sa, storageShapeE a = Except.ok sa := by
      cases hst : a.Storage with
      | dense sh d => exact ⟨sh, by simp [storageShapeE, hst]⟩
      | diag d => exact ⟨[d.length], by simp [storageShapeE, hst]⟩
      | blocks bs => simp [hst, UTStorage.noBlockList] at ha
    rw [eqPy, if_pos (by rw [hfd, hfb]; simp), hsa, ← hshape, hsa]
    dsimp only
    rw [if_pos (by rw [hbonds]; simp)]
    congr 1
    rw [Bool.and_eq_true]
    constructor
    · rw [List.all_eq_true]
      intro i _
      rw [hbonds, bondEqPy]
      simp
    · rw [List.all_eq_true]
      intro i _
      rw [hlabels]
      simp
  · exact ⟨_, rfl⟩

/-- Two tensors agreeing on all structural metadata but holding different
storage contents. -/
def c10a : UniTensor :=
  { bonds := [⟨2, none⟩], labels := [0], N_inbond := 1,
    is_diag := false, is_blockform := false,
    BlockMapperIn := [], BlockMapperOut := [], BlockQnums := [],
    Storage := UTStorage.dense [2] [1, 2] }

def c10b : UniTensor :=
  { bonds := [⟨2, none⟩], labels := [0], N_inbond := 1,
    is_diag := false, is_blockform := false,
    BlockMapperIn := [], BlockMapperOut := [], BlockQnums := [],
    Storage := UTStorage.dense [2] [3, 4] }

theorem C10_amended_eq_metadata_only_witness :
    ¬ c10a.Storage = c10b.Storage ∧
    (eqPy c10a (PyVal.ut c10b) = Except.ok true ∧
      ∃ e, eqPy c10a PyVal.other = Except.error e) :=
  ⟨by decide,
   C10_amended_eq_metadata_only c10a c10b rfl rfl rfl rfl rfl rfl rfl⟩
